import Mathlib

/-!
Shallow embedding of the color-scale engine of `egui_colors`
(`src/color_space.rs`, `src/scales.rs`).

Machine floats (`f32`) are modelled as exact rationals for the purely
rational-arithmetic parts of the code (clamps, lighten/darken, the scale
generation rules, the gamut-intersection solver) and as real numbers for the
gamma transfer functions, whose power-law segments use the exponent 2.4.
`f32::clamp` is translated literally (its caller must keep `min <= max`,
otherwise Rust panics; this ordering is itself one of the verified claims).
-/

/-- `f32::clamp` from the Rust standard library, over exact rationals:
if the value is below `lo` the result is `lo`, above `hi` the result is `hi`,
otherwise the value itself.  (Rust panics when `lo > hi`; the translation is
total and the bound-ordering obligations are stated as separate theorems.) -/
def clampQ (x lo hi : ℚ) : ℚ :=
  if x < lo then lo else if x > hi then hi else x

theorem le_clampQ (x lo hi : ℚ) (h : lo ≤ hi) : lo ≤ clampQ x lo hi := by
  unfold clampQ
  split_ifs <;> linarith

theorem clampQ_le (x lo hi : ℚ) (h : lo ≤ hi) : clampQ x lo hi ≤ hi := by
  unfold clampQ
  split_ifs <;> linarith

/-- `Okhsl` struct from `src/color_space.rs` (hue, saturation, lightness). -/
structure Okhsl where
  hue : ℚ
  saturation : ℚ
  lightness : ℚ
  deriving DecidableEq

/-- `Okhsl::lighten` from `src/color_space.rs` lines 117-123. -/
def Okhsl.lighten (c : Okhsl) (factor : ℚ) : Okhsl :=
  { hue := c.hue, saturation := c.saturation,
    lightness := clampQ (c.lightness + factor * (1 - c.lightness)) 0 1 }

/-- `Okhsl::darken` from `src/color_space.rs` lines 124-130. -/
def Okhsl.darken (c : Okhsl) (factor : ℚ) : Okhsl :=
  { hue := c.hue, saturation := c.saturation,
    lightness := clampQ (c.lightness - factor * c.lightness) 0 1 }

/-- `from_degrees` from `src/color_space.rs` lines 77-79:
`(hue / 360.).clamp(0., 1.)`. -/
def from_degrees (hue : ℚ) : ℚ :=
  clampQ (hue / 360) 0 1

/-- `Okhsl::as_degrees` from `src/color_space.rs` lines 134-137:
`(hue * 360.).clamp(0., 360.)`. -/
def Okhsl.as_degrees (c : Okhsl) : ℚ :=
  clampQ (c.hue * 360) 0 360

theorem from_degrees_mem (q : ℚ) : 0 ≤ from_degrees q ∧ from_degrees q ≤ 1 :=
  ⟨le_clampQ _ _ _ (by norm_num), clampQ_le _ _ _ (by norm_num)⟩

/-- First statement of the hue-nudge stage of `Scales::dark_scale`,
`src/scales.rs` lines 145-147: `if (259.0..=323.).contains(&hue)`, lighten by
`(i + 1) as f32 * 0.011`. -/
def darkNudgeStageA (hue : ℚ) (i : ℕ) (c : Okhsl) : Okhsl :=
  if 259 ≤ hue ∧ hue ≤ 323 then c.lighten (((i : ℚ) + 1) * 0.011) else c

/-- Second statement of the hue-nudge stage of `Scales::dark_scale`,
`src/scales.rs` lines 148-150: the literal translation of the Rust condition
`(323.0..=350.).contains(&hue) && i == (6 | 7)`, where `6 | 7` is the bitwise
or of the integers 6 and 7. -/
def darkNudgeStageB (hue : ℚ) (i : ℕ) (c : Okhsl) : Okhsl :=
  if (323 ≤ hue ∧ hue ≤ 350) ∧ i = Nat.lor 6 7 then
    c.lighten (((i : ℚ) + 1) * 0.01)
  else c

/-- The hue-nudge stage of `Scales::dark_scale`, `src/scales.rs` lines
145-150, acting at loop index `i` on the freshly converted variant `c`, with
`hue` the seed hue in degrees. -/
def darkNudgeStage (hue : ℚ) (i : ℕ) (c : Okhsl) : Okhsl :=
  darkNudgeStageB hue i (darkNudgeStageA hue i c)

/-- First hue correction for indices 9..11 of `Scales::dark_scale`,
`src/scales.rs` lines 170-173. -/
def darkHueStepA (hue : ℚ) (i : ℕ) (c : Okhsl) : Okhsl :=
  if (0 ≤ hue ∧ hue ≤ 90) ∨ (300 ≤ hue ∧ hue ≤ 350) then
    { c with hue := from_degrees (c.as_degrees + 2 * ((i : ℚ) - 8)) }
  else c

/-- Second hue correction for indices 9..11 of `Scales::dark_scale`,
`src/scales.rs` lines 174-177. -/
def darkHueStepB (hue : ℚ) (i : ℕ) (c : Okhsl) : Okhsl :=
  if 100 ≤ hue ∧ hue ≤ 280 then
    { c with hue := from_degrees (c.as_degrees - 2 * ((i : ℚ) - 8)) }
  else c

/-- The hue-correction stage for indices 9..11 of `Scales::dark_scale`,
`src/scales.rs` lines 168-177: `hue` is the seed hue in degrees, `i` the loop
index, `c` the lightened variant. -/
def darkHueStep (hue : ℚ) (i : ℕ) (c : Okhsl) : Okhsl :=
  darkHueStepB hue i (darkHueStepA hue i c)

/-- Rust `as u8` saturating cast applied to a nonnegative-or-negative float,
over exact rationals: negative values map to 0, values above 255 saturate to
255, otherwise truncate toward zero (used for `let hue = hue as u8` in
`Scales::light_scale`, `src/scales.rs` line 89). -/
def toU8sat (q : ℚ) : ℕ :=
  if q < 0 then 0 else min 255 (Int.toNat ⌊q⌋)

/-- `sat_val` of `Scales::light_scale`, `src/scales.rs` lines 90-94, as a
function of the integer hue: match arms `159..=216`, `100..=158`, default. -/
def sat_val (hue : ℕ) : ℚ :=
  if 159 ≤ hue ∧ hue ≤ 216 then ((hue : ℚ) - 159) / 58 * 0.25
  else if 100 ≤ hue ∧ hue ≤ 158 then ((158 : ℚ) - (hue : ℚ)) / 58 * 0.25
  else 0.25

/-- `sat_clamp` of `Scales::light_scale`, `src/scales.rs` lines 95-99:
match arms `100..=158`, `159..=217`, default. -/
def sat_clamp (hue : ℕ) : ℚ :=
  if 100 ≤ hue ∧ hue ≤ 158 then ((hue : ℚ) - 100) / 58 * 0.12
  else if 159 ≤ hue ∧ hue ≤ 217 then ((217 : ℚ) - (hue : ℚ)) / 58 * 0.12
  else 0

/-- The per-index saturation recompute of `Scales::light_scale`,
`src/scales.rs` lines 87-103: at loop index `i`, when `i != 8` and the seed
`hsl` has saturation and lightness above 0.01, the entry's saturation `cur`
is replaced by `(hsl.saturation * hsl.lightness + sat_val).clamp(0.1, 1.0 -
sat_clamp)`; otherwise it is left unchanged. -/
def lightSatStep (hsl : Okhsl) (i : ℕ) (cur : ℚ) : ℚ :=
  if i ≠ 8 then
    if hsl.saturation > 0.01 ∧ hsl.lightness > 0.01 then
      clampQ (hsl.saturation * hsl.lightness + sat_val (toU8sat hsl.as_degrees))
        0.1 (1 - sat_clamp (toU8sat hsl.as_degrees))
    else cur
  else cur

/-- Claim C3, counterexample: for an achromatic seed (Okhsl saturation 0,
lightness 1/2) the light-mode saturation recompute is NOT applied at index 0:
the entry keeps its previous saturation 7/10, while the claimed recomputed
value is 1/4. -/
theorem light_sat_step_guard_skips :
    lightSatStep ⟨0, 0, 1/2⟩ 0 (7/10) = 7/10 ∧
    clampQ ((⟨0, 0, 1/2⟩ : Okhsl).saturation * (⟨0, 0, 1/2⟩ : Okhsl).lightness +
        sat_val (toU8sat (⟨0, 0, 1/2⟩ : Okhsl).as_degrees))
      0.1 (1 - sat_clamp (toU8sat (⟨0, 0, 1/2⟩ : Okhsl).as_degrees)) = 1/4 ∧
    (7/10 : ℚ) ≠ 1/4 := by
  norm_num [lightSatStep, clampQ, sat_val, sat_clamp, toU8sat, Okhsl.as_degrees]

/-- Claim C3 (amended): for every non-seed index, PROVIDED the seed's Okhsl
saturation and lightness both exceed 0.01, the entry's saturation is
recomputed as `seed.saturation * seed.lightness + sat_val`, clamped to
`[0.1, 1 - sat_clamp]` (with `sat_val`/`sat_clamp` the hue-tapered bonus and
clamp of lines 90-99); seeds at or below those thresholds keep the entry's
previously computed saturation. -/
theorem light_sat_step_recompute (hsl : Okhsl) (i : ℕ) (cur : ℚ)
    (hi : i ≠ 8) (hs : hsl.saturation > 0.01) (hl : hsl.lightness > 0.01) :
    lightSatStep hsl i cur =
      clampQ (hsl.saturation * hsl.lightness + sat_val (toU8sat hsl.as_degrees))
        0.1 (1 - sat_clamp (toU8sat hsl.as_degrees)) := by
  unfold lightSatStep
  rw [if_pos hi, if_pos ⟨hs, hl⟩]

theorem light_sat_step_recompute_witness :
    (0 : ℕ) ≠ 8 ∧ ((⟨1/2, 1/2, 1/2⟩ : Okhsl)).saturation > 0.01 ∧
    ((⟨1/2, 1/2, 1/2⟩ : Okhsl)).lightness > 0.01 ∧
    lightSatStep ⟨1/2, 1/2, 1/2⟩ 0 0 =
      clampQ ((⟨1/2, 1/2, 1/2⟩ : Okhsl).saturation * (⟨1/2, 1/2, 1/2⟩ : Okhsl).lightness +
          sat_val (toU8sat (⟨1/2, 1/2, 1/2⟩ : Okhsl).as_degrees))
        0.1 (1 - sat_clamp (toU8sat (⟨1/2, 1/2, 1/2⟩ : Okhsl).as_degrees)) :=
  ⟨by decide, by norm_num, by norm_num,
    light_sat_step_recompute ⟨1/2, 1/2, 1/2⟩ 0 0 (by decide) (by norm_num) (by norm_num)⟩

/-- `clamp_s` array of `Scales::dark_scale`, `src/scales.rs` line 137:
`[0.3, 0.5, 0.8, 1., 1., 0.95, 0.7, 0.8]`. -/
def clamp_s (i : ℕ) : ℚ :=
  if i = 0 then 0.3 else if i = 1 then 0.5 else if i = 2 then 0.8
  else if i = 3 then 1 else if i = 4 then 1 else if i = 5 then 0.95
  else if i = 6 then 0.7 else 0.8

/-- `clamp_s2` array of `Scales::dark_scale`, `src/scales.rs` line 138:
`[0.14, 0.16, 0.44, 0.62, 0.61, 0.56, 0.52, 0.51]`. -/
def clamp_s2 (i : ℕ) : ℚ :=
  if i = 0 then 0.14 else if i = 1 then 0.16 else if i = 2 then 0.44
  else if i = 3 then 0.62 else if i = 4 then 0.61 else if i = 5 then 0.56
  else if i = 6 then 0.52 else 0.51

/-- `clamp_l` array of `Scales::dark_scale`, `src/scales.rs` line 139:
`[0.08, 0.10, 0.15, 0.19, 0.23, 0.29, 0.36, 0.47]`. -/
def clamp_l (i : ℕ) : ℚ :=
  if i = 0 then 0.08 else if i = 1 then 0.10 else if i = 2 then 0.15
  else if i = 3 then 0.19 else if i = 4 then 0.23 else if i = 5 then 0.29
  else if i = 6 then 0.36 else 0.47

/-- Saturation rescale and clamp for indices 0..7 of `Scales::dark_scale`,
`src/scales.rs` lines 151-162: the entry's saturation `s` is first scaled by
`1 + (1 - seed.saturation) * 2`, then clamped per the seed-saturation branch. -/
def darkSatStage (hsl : Okhsl) (i : ℕ) (s : ℚ) : ℚ :=
  if hsl.saturation > 0.36 then
    clampQ (s * (1 + (1 - hsl.saturation) * 2)) (clamp_s2 i)
      (clampQ (hsl.saturation * clamp_s i) (clamp_s2 i + 0.01) 1)
  else
    clampQ (s * (1 + (1 - hsl.saturation) * 2)) 0 (hsl.saturation * clamp_s i)

/-- Lightness clamp for indices 0..7 of `Scales::dark_scale`,
`src/scales.rs` lines 163-166. -/
def darkLightStage (hsl : Okhsl) (i : ℕ) (l : ℚ) : ℚ :=
  clampQ l (clamp_l i)
    (clampQ (clamp_l i * (1.71 - hsl.saturation)) (clamp_l i + 0.01) 1)

/-- Claim C9: for a seed with nonnegative Okhsl saturation, every clamp
invocation of the dark-mode pipeline has its lower bound at most its upper
bound, so `f32::clamp` never panics: the inner saturation clamp is ordered
(`clamp_s2[i] + 0.01 <= 1`), its result bounds the outer clamp from above by
at least `clamp_s2[i] + 0.01 > clamp_s2[i]`, the low-saturation branch bound
`seed.saturation * clamp_s[i]` is nonnegative, and likewise for the lightness
clamps and the index 10/11 saturation caps of lines 179-184. -/
theorem dark_clamps_ordered (hsl : Okhsl) (i : ℕ) (hi : i < 8)
    (hs : 0 ≤ hsl.saturation) :
    clamp_s2 i + 0.01 ≤ 1 ∧
    clamp_s2 i ≤ clampQ (hsl.saturation * clamp_s i) (clamp_s2 i + 0.01) 1 ∧
    0 ≤ hsl.saturation * clamp_s i ∧
    clamp_l i + 0.01 ≤ 1 ∧
    clamp_l i ≤ clampQ (clamp_l i * (1.71 - hsl.saturation)) (clamp_l i + 0.01) 1 ∧
    0 ≤ hsl.saturation * 0.75 ∧ 0 ≤ hsl.saturation * 0.9 := by
  have hs2 : clamp_s2 i + 0.01 ≤ 1 := by interval_cases i <;> norm_num [clamp_s2]
  have hl2 : clamp_l i + 0.01 ≤ 1 := by interval_cases i <;> norm_num [clamp_l]
  have hcs : 0 ≤ clamp_s i := by interval_cases i <;> norm_num [clamp_s]
  exact ⟨hs2, le_trans (le_add_of_nonneg_right (by norm_num)) (le_clampQ _ _ _ hs2),
    mul_nonneg hs hcs, hl2,
    le_trans (le_add_of_nonneg_right (by norm_num)) (le_clampQ _ _ _ hl2),
    mul_nonneg hs (by norm_num), mul_nonneg hs (by norm_num)⟩

theorem dark_clamps_ordered_witness :
    (0 : ℕ) < 8 ∧ (0 : ℚ) ≤ (⟨0, 1/2, 1/2⟩ : Okhsl).saturation ∧
    (clamp_s2 0 + 0.01 ≤ 1 ∧
      clamp_s2 0 ≤ clampQ ((⟨0, 1/2, 1/2⟩ : Okhsl).saturation * clamp_s 0) (clamp_s2 0 + 0.01) 1 ∧
      0 ≤ (⟨0, 1/2, 1/2⟩ : Okhsl).saturation * clamp_s 0 ∧
      clamp_l 0 + 0.01 ≤ 1 ∧
      clamp_l 0 ≤ clampQ (clamp_l 0 * (1.71 - (⟨0, 1/2, 1/2⟩ : Okhsl).saturation))
        (clamp_l 0 + 0.01) 1 ∧
      0 ≤ (⟨0, 1/2, 1/2⟩ : Okhsl).saturation * 0.75 ∧
      0 ≤ (⟨0, 1/2, 1/2⟩ : Okhsl).saturation * 0.9) :=
  ⟨by decide, by norm_num,
    dark_clamps_ordered ⟨0, 1/2, 1/2⟩ 0 (by decide) (by norm_num)⟩

/-- Final contrast-driven correction of `Scales::dark_scale`, `src/scales.rs`
lines 185-192.  `lc` stands for the value of `estimate_lc(Color32::WHITE,
seed)`: the contrast estimator lives in the crate's `apca` module, outside
the color-scale core, and the branch depends only on its value, so it is
taken as an input.  `hsl` is the seed's Okhsl value, `o8` and `o9` the scale
entries 8 and 9 as computed earlier in the pipeline. -/
def darkFinalStage (lc : ℚ) (hsl o8 o9 : Okhsl) : Okhsl × Okhsl :=
  if lc < -95.4 then
    ({ hsl.lighten 0.3 with saturation := clampQ (hsl.saturation * 1.25) 0 1 },
     { o9.lighten 0.25 with saturation := hsl.saturation })
  else (o8, o9)

/-- Claim C2: in dark mode, when the luminance contrast estimate of white
against the seed is below -95.4, index 8 becomes the seed lightened by 0.3
with saturation `(seed.saturation * 1.25).clamp(0, 1)`, and index 9 is the
earlier index-9 entry lightened by 0.25 with the seed's original saturation;
when the estimate is at least -95.4 both entries keep their earlier values. -/
theorem dark_final_stage_contrast (lc : ℚ) (hsl o8 o9 : Okhsl) :
    (lc < -95.4 →
      darkFinalStage lc hsl o8 o9 =
        (⟨hsl.hue, clampQ (hsl.saturation * 1.25) 0 1,
            clampQ (hsl.lightness + 0.3 * (1 - hsl.lightness)) 0 1⟩,
         ⟨o9.hue, hsl.saturation,
            clampQ (o9.lightness + 0.25 * (1 - o9.lightness)) 0 1⟩)) ∧
    (-95.4 ≤ lc → darkFinalStage lc hsl o8 o9 = (o8, o9)) := by
  constructor
  · intro h
    unfold darkFinalStage
    rw [if_pos h]
    rfl
  · intro h
    unfold darkFinalStage
    rw [if_neg (not_lt.mpr h)]

theorem dark_final_stage_contrast_witness :
    ((-100 : ℚ) < -95.4 ∧
      darkFinalStage (-100) ⟨1/2, 1/2, 1/2⟩ ⟨0, 0, 0⟩ ⟨1/4, 1/4, 1/4⟩ =
        (⟨(1 : ℚ)/2, clampQ ((1/2 : ℚ) * 1.25) 0 1,
            clampQ ((1/2 : ℚ) + 0.3 * (1 - (1/2 : ℚ))) 0 1⟩,
         ⟨(1 : ℚ)/4, 1/2, clampQ ((1/4 : ℚ) + 0.25 * (1 - (1/4 : ℚ))) 0 1⟩)) ∧
    ((-95.4 : ℚ) ≤ 0 ∧
      darkFinalStage 0 ⟨1/2, 1/2, 1/2⟩ ⟨0, 0, 0⟩ ⟨1/4, 1/4, 1/4⟩ =
        (⟨0, 0, 0⟩, ⟨1/4, 1/4, 1/4⟩)) :=
  ⟨⟨by norm_num,
      (dark_final_stage_contrast (-100) ⟨1/2, 1/2, 1/2⟩ ⟨0, 0, 0⟩ ⟨1/4, 1/4, 1/4⟩).1
        (by norm_num)⟩,
   ⟨by norm_num,
      (dark_final_stage_contrast 0 ⟨1/2, 1/2, 1/2⟩ ⟨0, 0, 0⟩ ⟨1/4, 1/4, 1/4⟩).2
        (by norm_num)⟩⟩

/-- `find_gamut_intersection` from `src/color_space.rs` lines 249-336, over
exact rationals.  The cusp is passed as the pair `(cusp_l, cusp_c)`: the Rust
signature takes `cusp: Option<[f32; 2]>` and `unwrap_or_else`-computes it via
`find_cusp`, but the only in-crate caller (`get_cs`) always passes
`Some(cusp)`.  Every `mul_add(x, y)` of the source is written `* x + y`; the
Rust shadowed names `l`, `m`, `s`, `b` for the cubed responses are rendered
`l3`, `m3`, `s3`, `b3`. -/
def find_gamut_intersection (a b l_1 c_1 l_0 cusp_l cusp_c : ℚ) : ℚ :=
  if (l_1 - l_0) * cusp_c + -((cusp_l - l_0) * c_1) ≤ 0 then
    cusp_c * l_0 / (c_1 * cusp_l + cusp_c * (l_0 - l_1))
  else
    let t := cusp_c * (l_0 - 1) / (c_1 * (cusp_l - 1) + cusp_c * (l_0 - l_1))
    let d_l := l_1 - l_0
    let d_c := c_1
    let k_l := 0.39633778 * a + 0.21580376 * b
    let k_m := -0.105561346 * a + -(0.06385417 * b)
    let k_s := -0.08948418 * a + -(1.2914855 * b)
    let l_dt := d_c * k_l + d_l
    let m_dt := d_c * k_m + d_l
    let s_dt := d_c * k_s + d_l
    let l := l_0 * (1 - t) + t * l_1
    let c := t * c_1
    let l_ := c * k_l + l
    let m_ := c * k_m + l
    let s_ := c * k_s + l
    let l3 := l_ * l_ * l_
    let m3 := m_ * m_ * m_
    let s3 := s_ * s_ * s_
    let ldt := 3 * (l_dt * l_) * l_
    let mdt := 3 * (m_dt * m_) * m_
    let sdt := 3 * (s_dt * s_) * s_
    let ldt2 := 6 * l_dt * (l_dt * l_)
    let mdt2 := 6 * m_dt * (m_dt * m_)
    let sdt2 := 6 * s_dt * (s_dt * s_)
    let r := 0.23096994 * s3 + (4.0767417 * l3 + -(3.3077116 * m3)) - 1
    let r1 := 0.23096994 * sdt + (4.0767417 * ldt + -(3.3077116 * mdt))
    let r2 := 0.23096994 * sdt2 + (4.0767417 * ldt2 + -(3.3077116 * mdt2))
    let u_r := r1 / (r1 * r1 + -(0.5 * r * r2))
    let t_r := -r * u_r
    let g := 0.34131938 * (-s3) + (-1.268438 * l3 + 2.6097574 * m3) - 1
    let g1 := 0.34131938 * (-sdt) + (-1.268438 * ldt + 2.6097574 * mdt)
    let g2 := 0.34131938 * (-sdt2) + (-1.268438 * ldt2 + 2.6097574 * mdt2)
    let u_g := g1 / (g1 * g1 + -(0.5 * g * g2))
    let t_g := -g * u_g
    let b3 := 1.7076147 * s3 + (-0.0041960863 * l3 + -(0.7034186 * m3)) - 1
    let b1 := 1.7076147 * sdt + (-0.0041960863 * ldt + -(0.7034186 * mdt))
    let b2 := 1.7076147 * sdt2 + (-0.0041960863 * ldt2 + -(0.7034186 * mdt2))
    let u_b := b1 / (b1 * b1 + -(0.5 * b3 * b2))
    let t_b := -b3 * u_b
    let t_r2 := if u_r ≥ 0 then t_r else 10e5
    let t_g2 := if u_g ≥ 0 then t_g else 10e5
    let t_b2 := if u_b ≥ 0 then t_b else 10e5
    t + min t_r2 (min t_g2 t_b2)

/-- The closed-form start parameter of the upper-segment (non-closed-form)
branch of `find_gamut_intersection` (the spec's "closed-form upper-segment
start"). -/
def upper_segment_start (l_1 c_1 l_0 cusp_l cusp_c : ℚ) : ℚ :=
  cusp_c * (l_0 - 1) / (c_1 * (cusp_l - 1) + cusp_c * (l_0 - l_1))

/-- The three per-channel Halley-step pairs of `find_gamut_intersection` at
ray parameter `t`: for each of the red, green and blue channels, the
derivative-based factor `u` and the step candidate `t = -f * u` (the spec's
"per-channel Halley-step candidates"). -/
def gamut_candidates (a b l_1 c_1 l_0 t : ℚ) : (ℚ × ℚ) × (ℚ × ℚ) × (ℚ × ℚ) :=
  let d_l := l_1 - l_0
  let d_c := c_1
  let k_l := 0.39633778 * a + 0.21580376 * b
  let k_m := -0.105561346 * a + -(0.06385417 * b)
  let k_s := -0.08948418 * a + -(1.2914855 * b)
  let l_dt := d_c * k_l + d_l
  let m_dt := d_c * k_m + d_l
  let s_dt := d_c * k_s + d_l
  let l := l_0 * (1 - t) + t * l_1
  let c := t * c_1
  let l_ := c * k_l + l
  let m_ := c * k_m + l
  let s_ := c * k_s + l
  let l3 := l_ * l_ * l_
  let m3 := m_ * m_ * m_
  let s3 := s_ * s_ * s_
  let ldt := 3 * (l_dt * l_) * l_
  let mdt := 3 * (m_dt * m_) * m_
  let sdt := 3 * (s_dt * s_) * s_
  let ldt2 := 6 * l_dt * (l_dt * l_)
  let mdt2 := 6 * m_dt * (m_dt * m_)
  let sdt2 := 6 * s_dt * (s_dt * s_)
  let r := 0.23096994 * s3 + (4.0767417 * l3 + -(3.3077116 * m3)) - 1
  let r1 := 0.23096994 * sdt + (4.0767417 * ldt + -(3.3077116 * mdt))
  let r2 := 0.23096994 * sdt2 + (4.0767417 * ldt2 + -(3.3077116 * mdt2))
  let u_r := r1 / (r1 * r1 + -(0.5 * r * r2))
  let t_r := -r * u_r
  let g := 0.34131938 * (-s3) + (-1.268438 * l3 + 2.6097574 * m3) - 1
  let g1 := 0.34131938 * (-sdt) + (-1.268438 * ldt + 2.6097574 * mdt)
  let g2 := 0.34131938 * (-sdt2) + (-1.268438 * ldt2 + 2.6097574 * mdt2)
  let u_g := g1 / (g1 * g1 + -(0.5 * g * g2))
  let t_g := -g * u_g
  let b3 := 1.7076147 * s3 + (-0.0041960863 * l3 + -(0.7034186 * m3)) - 1
  let b1 := 1.7076147 * sdt + (-0.0041960863 * ldt + -(0.7034186 * mdt))
  let b2 := 1.7076147 * sdt2 + (-0.0041960863 * ldt2 + -(0.7034186 * mdt2))
  let u_b := b1 / (b1 * b1 + -(0.5 * b3 * b2))
  let t_b := -b3 * u_b
  ((u_r, t_r), (u_g, t_g), (u_b, t_b))

/-- Claim C6: when the ray does not stay below the cusp (the non-closed-form
branch), `find_gamut_intersection` returns the closed-form upper-segment
start plus the smallest of the three per-channel Halley-step candidates,
with a channel whose derivative-based factor `u` is negative contributing
the large sentinel 10e5 instead of its candidate. -/
theorem gamut_intersection_upper_branch (a b l_1 c_1 l_0 cusp_l cusp_c : ℚ)
    (h : ¬ ((l_1 - l_0) * cusp_c + -((cusp_l - l_0) * c_1) ≤ 0)) :
    find_gamut_intersection a b l_1 c_1 l_0 cusp_l cusp_c =
      upper_segment_start l_1 c_1 l_0 cusp_l cusp_c +
      min
        (if (gamut_candidates a b l_1 c_1 l_0
              (upper_segment_start l_1 c_1 l_0 cusp_l cusp_c)).1.1 ≥ 0 then
          (gamut_candidates a b l_1 c_1 l_0
            (upper_segment_start l_1 c_1 l_0 cusp_l cusp_c)).1.2
         else 10e5)
        (min
          (if (gamut_candidates a b l_1 c_1 l_0
                (upper_segment_start l_1 c_1 l_0 cusp_l cusp_c)).2.1.1 ≥ 0 then
            (gamut_candidates a b l_1 c_1 l_0
              (upper_segment_start l_1 c_1 l_0 cusp_l cusp_c)).2.1.2
           else 10e5)
          (if (gamut_candidates a b l_1 c_1 l_0
                (upper_segment_start l_1 c_1 l_0 cusp_l cusp_c)).2.2.1 ≥ 0 then
            (gamut_candidates a b l_1 c_1 l_0
              (upper_segment_start l_1 c_1 l_0 cusp_l cusp_c)).2.2.2
           else 10e5)) := by
  unfold find_gamut_intersection upper_segment_start gamut_candidates
  rw [if_neg h]

theorem gamut_intersection_upper_branch_witness :
    ¬ ((((1 : ℚ)) - 1/2) * (1/5) + -((((7 : ℚ)/10) - 1/2) * (1/10)) ≤ 0) ∧
    find_gamut_intersection 0 0 1 (1/10) (1/2) (7/10) (1/5) =
      upper_segment_start 1 (1/10) (1/2) (7/10) (1/5) +
      min
        (if (gamut_candidates 0 0 1 (1/10) (1/2)
              (upper_segment_start 1 (1/10) (1/2) (7/10) (1/5))).1.1 ≥ 0 then
          (gamut_candidates 0 0 1 (1/10) (1/2)
            (upper_segment_start 1 (1/10) (1/2) (7/10) (1/5))).1.2
         else 10e5)
        (min
          (if (gamut_candidates 0 0 1 (1/10) (1/2)
                (upper_segment_start 1 (1/10) (1/2) (7/10) (1/5))).2.1.1 ≥ 0 then
            (gamut_candidates 0 0 1 (1/10) (1/2)
              (upper_segment_start 1 (1/10) (1/2) (7/10) (1/5))).2.1.2
           else 10e5)
          (if (gamut_candidates 0 0 1 (1/10) (1/2)
                (upper_segment_start 1 (1/10) (1/2) (7/10) (1/5))).2.2.1 ≥ 0 then
            (gamut_candidates 0 0 1 (1/10) (1/2)
              (upper_segment_start 1 (1/10) (1/2) (7/10) (1/5))).2.2.2
           else 10e5)) :=
  ⟨by norm_num,
    gamut_intersection_upper_branch 0 0 1 (1/10) (1/2) (7/10) (1/5) (by norm_num)⟩

/-- Claim C10: `Okhsl::lighten` and `Okhsl::darken` keep the hue and the
saturation of their input unchanged, and return a lightness clamped into
the unit interval [0,1]. -/
theorem lighten_darken_frame_effect (c : Okhsl) (f : ℚ) :
    (c.lighten f).hue = c.hue ∧ (c.lighten f).saturation = c.saturation ∧
    0 ≤ (c.lighten f).lightness ∧ (c.lighten f).lightness ≤ 1 ∧
    (c.darken f).hue = c.hue ∧ (c.darken f).saturation = c.saturation ∧
    0 ≤ (c.darken f).lightness ∧ (c.darken f).lightness ≤ 1 := by
  refine ⟨rfl, rfl, ?_, ?_, rfl, rfl, ?_, ?_⟩
  · exact le_clampQ _ _ _ (by norm_num)
  · exact clampQ_le _ _ _ (by norm_num)
  · exact le_clampQ _ _ _ (by norm_num)
  · exact clampQ_le _ _ _ (by norm_num)

/-- Claim C8, counterexample: a dark-mode hue correction that pushes the hue
past 360 degrees is clamped to exactly 1, it is not wrapped around the circle
(and the result does not lie in the half-open interval [0,1)).  Seed hue 340
degrees, index 11, variant hue 358/360 of a turn: the shifted value 364
degrees becomes hue 1. -/
theorem dark_hue_step_not_wrapped :
    (darkHueStep 340 11 ⟨358/360, 1/2, 1/2⟩).hue = 1 ∧
    ¬ (darkHueStep 340 11 ⟨358/360, 1/2, 1/2⟩).hue < 1 := by
  norm_num [darkHueStep, darkHueStepA, darkHueStepB, Okhsl.as_degrees,
    from_degrees, clampQ]

/-- Claim C8 (amended): every hue value produced by the hue-correction steps
lies in the closed interval [0,1]; out-of-range shifts are clamped to the
boundary (a shift past 360 degrees lands at exactly 1 and a shift below 0
degrees at exactly 0), not wrapped around the circle. -/
theorem dark_hue_step_clamped (hue : ℚ) (i : ℕ) (c : Okhsl)
    (h0 : 0 ≤ c.hue) (h1 : c.hue ≤ 1) :
    0 ≤ (darkHueStep hue i c).hue ∧ (darkHueStep hue i c).hue ≤ 1 := by
  unfold darkHueStep darkHueStepB darkHueStepA
  split_ifs with hA hB hB2
  · exact from_degrees_mem _
  · exact from_degrees_mem _
  · exact from_degrees_mem _
  · exact ⟨h0, h1⟩

theorem dark_hue_step_clamped_witness :
    0 ≤ ((⟨1/2, 1/2, 1/2⟩ : Okhsl)).hue ∧ ((⟨1/2, 1/2, 1/2⟩ : Okhsl)).hue ≤ 1 ∧
    (0 ≤ (darkHueStep 50 9 ⟨1/2, 1/2, 1/2⟩).hue ∧
      (darkHueStep 50 9 ⟨1/2, 1/2, 1/2⟩).hue ≤ 1) :=
  ⟨by norm_num, by norm_num,
    dark_hue_step_clamped 50 9 ⟨1/2, 1/2, 1/2⟩ (by norm_num) (by norm_num)⟩

/-- `linear_f32_from_gamma_u8` from `src/color_space.rs` lines 55-61, with
`f32` idealized as the real numbers: values at most 10 use the linear
segment `s / 3294.6`, the rest the power-law segment
`((s + 14.025) / 269.025).powf(2.4)`. -/
noncomputable def linear_f32_from_gamma_u8 (s : ℕ) : ℝ :=
  if s ≤ 10 then (s : ℝ) / 3294.6
  else (((s : ℝ) + 14.025) / 269.025) ^ (2.4 : ℝ)

/-- `fast_round` from `src/color_space.rs` lines 74-76: `(r + 0.5) as u8`.
Rust's saturating float-to-u8 cast truncates toward zero, clamping below 0
to 0 and above 255 to 255; for arguments at least -1 (always the case here)
truncation toward zero agrees with `Int.toNat` of the floor. -/
noncomputable def fast_round (r : ℝ) : ℕ :=
  min 255 (Int.toNat ⌊r + 0.5⌋)

/-- `gamma_u8_from_linear_f32` from `src/color_space.rs` lines 63-73, with
`f32` idealized as the real numbers. -/
noncomputable def gamma_u8_from_linear_f32 (l : ℝ) : ℕ :=
  if l ≤ 0 then 0
  else if l ≤ 0.0031308 then fast_round (3294.6 * l)
  else if l ≤ 1 then fast_round (269.025 * l ^ ((1 : ℝ)/2.4) - 14.025)
  else 255

theorem fast_round_natCast (n : ℕ) : fast_round (n : ℝ) = min 255 n := by
  unfold fast_round
  have h : ⌊(n : ℝ) + 0.5⌋ = (n : ℤ) := by
    rw [Int.floor_eq_iff]
    constructor
    · push_cast
      linarith
    · push_cast
      linarith
  rw [h, Int.toNat_natCast]

theorem gamma_small (n : ℕ) (h1 : 1 ≤ n) (h10 : n ≤ 10) :
    gamma_u8_from_linear_f32 ((n : ℝ) / 3294.6) = n := by
  have hn1 : (1 : ℝ) ≤ (n : ℝ) := by exact_mod_cast h1
  have hn10 : (n : ℝ) ≤ 10 := by exact_mod_cast h10
  have hpos : (0 : ℝ) < (n : ℝ) / 3294.6 := div_pos (by linarith) (by norm_num)
  have hle : (n : ℝ) / 3294.6 ≤ 0.0031308 := by
    rw [div_le_iff₀ (by norm_num : (0 : ℝ) < 3294.6)]
    linarith
  unfold gamma_u8_from_linear_f32
  rw [if_neg (not_le.mpr hpos), if_pos hle]
  have hmul : 3294.6 * ((n : ℝ) / 3294.6) = (n : ℝ) := by field_simp
  rw [hmul, fast_round_natCast]
  omega

theorem gamma_large (n : ℕ) (h11 : 11 ≤ n) (h255 : n ≤ 255) :
    gamma_u8_from_linear_f32 ((((n : ℝ) + 14.025) / 269.025) ^ (2.4 : ℝ)) = n := by
  set q : ℝ := ((n : ℝ) + 14.025) / 269.025 with hq
  have hn11 : (11 : ℝ) ≤ (n : ℝ) := by exact_mod_cast h11
  have hn255 : (n : ℝ) ≤ 255 := by exact_mod_cast h255
  have hq0 : 0 < q := by rw [hq]; positivity
  have hq1 : q ≤ 1 := by
    rw [hq, div_le_one (by norm_num)]
    linarith
  have hqlo : (25.025 / 269.025 : ℝ) ≤ q := by
    rw [hq]
    rw [div_le_div_iff₀ (by norm_num) (by norm_num)]
    nlinarith
  have hkey : (0.0031308 : ℝ) < q ^ (2.4 : ℝ) := by
    have hmono : (25.025 / 269.025 : ℝ) ^ (2.4 : ℝ) ≤ q ^ (2.4 : ℝ) :=
      Real.rpow_le_rpow (by norm_num) hqlo (by norm_num)
    have hbase : (0.0031308 : ℝ) < (25.025 / 269.025 : ℝ) ^ (2.4 : ℝ) := by
      by_contra hcon
      push_neg at hcon
      have h5 : ((25.025 / 269.025 : ℝ) ^ (2.4 : ℝ)) ^ (5 : ℕ) ≤ (0.0031308 : ℝ) ^ (5 : ℕ) :=
        pow_le_pow_left₀ (Real.rpow_nonneg (by norm_num) _) hcon 5
      rw [← Real.rpow_natCast ((25.025 / 269.025 : ℝ) ^ (2.4 : ℝ)) 5,
        ← Real.rpow_mul (by norm_num)] at h5
      norm_num at h5
    exact lt_of_lt_of_le hbase hmono
  have hle1 : q ^ (2.4 : ℝ) ≤ 1 := Real.rpow_le_one hq0.le hq1 (by norm_num)
  have hA : ¬ (q ^ (2.4 : ℝ) ≤ 0) := not_le.mpr (Real.rpow_pos_of_pos hq0 _)
  have hB : ¬ (q ^ (2.4 : ℝ) ≤ 0.0031308) := not_le.mpr hkey
  unfold gamma_u8_from_linear_f32
  rw [if_neg hA, if_neg hB, if_pos hle1]
  have hqq : (q ^ (2.4 : ℝ)) ^ ((1 : ℝ)/2.4) = q := by
    rw [← Real.rpow_mul hq0.le]
    rw [show (2.4 : ℝ) * ((1 : ℝ)/2.4) = 1 by norm_num, Real.rpow_one]
  rw [hqq]
  have harith : 269.025 * q - 14.025 = (n : ℝ) := by
    rw [hq]
    field_simp
  rw [harith, fast_round_natCast]
  omega

/-- Claim C5: encoding a decoded 8-bit value is the identity, for every
value in [0,255]: `gamma_u8_from_linear_f32 (linear_f32_from_gamma_u8 s)
= s` (the `f32` transfer functions idealized over the real numbers, where
both power-law segments are exact mutual inverses). -/
theorem gamma_roundtrip_exact (s : Fin 256) :
    gamma_u8_from_linear_f32 (linear_f32_from_gamma_u8 s.val) = s.val := by
  obtain ⟨n, hn⟩ := s
  show gamma_u8_from_linear_f32 (linear_f32_from_gamma_u8 n) = n
  by_cases h10 : n ≤ 10
  · unfold linear_f32_from_gamma_u8
    rw [if_pos h10]
    rcases Nat.eq_zero_or_pos n with h0 | h1
    · subst h0
      norm_num [gamma_u8_from_linear_f32]
    · exact gamma_small n h1 h10
  · unfold linear_f32_from_gamma_u8
    rw [if_neg h10]
    exact gamma_large n (by omega) (by omega)

/-- Claim C1, code evaluation at the failing input: with seed hue 340 degrees
(inside (323,350)) the extra lightening nudge is NOT applied at index 6 (the
variant is returned unchanged), while it IS applied at index 7 (lightness
moves from 1/2 to 27/50).  The Rust condition `i == (6 | 7)` compares `i`
against the bitwise or `6 | 7 = 7`, so index 6 never takes this branch. -/
theorem dark_nudge_index6_skipped :
    darkNudgeStage 340 6 ⟨9/10, 4/5, 1/2⟩ = ⟨9/10, 4/5, 1/2⟩ ∧
    darkNudgeStage 340 7 ⟨9/10, 4/5, 1/2⟩ = ⟨9/10, 4/5, 27/50⟩ := by
  have h67 : Nat.lor 6 7 = 7 := by decide
  norm_num [darkNudgeStage, darkNudgeStageA, darkNudgeStageB, Okhsl.lighten,
    clampQ, h67, Okhsl.mk.injEq]
